import Mathlib

/-!
Verification of `scripts/pull-data.js` (Saltbox Marketing Dashboard data pull).

The script is shallowly embedded: JavaScript numbers are modelled as exact
rationals (`ℚ`), JavaScript objects used as numeric maps are modelled as
`String → Option ℚ` (a missing property is `none`, and the script's
`m[k] || 0` access is `jsGet`), and `null`-able KPI values are `Option ℚ`
with `none` as the `null` marker.  `Math.round` is `⌊x + 1/2⌋`, so the
script's `r2` two-decimal rounding is modelled exactly on rationals.
-/

/-- A JavaScript object holding numeric fields, as consumed by the script:
a lookup yields the stored number or `undefined` (`none`). -/
def JsMap : Type := String → Option ℚ

/-- The script's `m[k] || 0` read: a missing key counts as zero.
(`0 || 0` is also `0`, so coercing the stored value with default `0` is exact.) -/
def jsGet (m : JsMap) (k : String) : ℚ := (m k).getD 0

/-- JavaScript truthiness of a number-or-null value: `null` and `0` are falsy,
every other (finite) number is truthy. -/
def jsTruthy (v : Option ℚ) : Bool :=
  match v with
  | none => false
  | some x => x != 0

/-- `Math.round(x * 100) / 100` on exact rationals: ECMAScript `Math.round`
is `⌊x + 1/2⌋` (half-up, toward +∞). -/
def round2 (x : ℚ) : ℚ := (⌊x * 100 + 1/2⌋ : ℚ) / 100

/-- The script's `r2`: `v != null && isFinite(v) ? Math.round(v * 100) / 100 : null`.
Every rational is finite, so the `isFinite` guard is always true on `some` values. -/
def r2 (v : Option ℚ) : Option ℚ :=
  match v with
  | some x => some (round2 x)
  | none => none

/-- Association-list lookup, modelling a JavaScript object property read
(`obj[key]`, `undefined` when absent). -/
def lookupA {α : Type} (m : List (String × α)) (k : String) : Option α :=
  (m.find? (fun p => p.1 == k)).map Prod.snd

/-- ECMAScript string comparison on code units (code points for the ASCII
keys used here), lexicographic. -/
def jsStrLtChars : List Char → List Char → Bool
  | [], [] => false
  | [], _ :: _ => true
  | _ :: _, [] => false
  | a :: as, b :: bs =>
      if a.toNat < b.toNat then true
      else if b.toNat < a.toNat then false
      else jsStrLtChars as bs

/-- JavaScript `a <= b` on strings. -/
def jsStrLe (a b : String) : Bool := ! jsStrLtChars b.data a.data

/-- Insert a string into a list sorted by `jsStrLe`. -/
def insertSorted (k : String) : List String → List String
  | [] => [k]
  | x :: xs => if jsStrLe k x then k :: x :: xs else x :: insertSorted k xs

/-- JavaScript `Array.prototype.sort()` with the default (lexicographic
string) comparator, as used on the known-month keys. -/
def sortKeys : List String → List String
  | [] => []
  | x :: xs => insertSorted x (sortKeys xs)

/-! ## Configuration tables (transcribed from the script's CONFIG section) -/

/-- `LOCATIONS` from the script. -/
def LOCATIONS : List String :=
  ["ATL-UWS", "ATL-WSP", "DAL-CAR", "DAL-FB", "DC-ALX",
   "DEN-PH", "LA-DUA", "LA-TOR", "MIA-DR", "PHX-ST", "SEA-SODO"]

/-- `SALARY_CONFIG.total` from the script: total marketing payroll per month. -/
def SALARY_CONFIG_total : ℚ := 72082

/-- `MONTHS_BACK` from the script. -/
def MONTHS_BACK : ℕ := 12

/-- `KNOWN_MEMBER_COUNTS` from the script (month key → location → count). -/
def KNOWN_MEMBER_COUNTS : List (String × List (String × ℚ)) :=
  [("2025-12",
    [("ATL-UWS", 64), ("DAL-FB", 96), ("SEA-SODO", 86), ("DEN-PH", 94),
     ("LA-TOR", 72), ("DC-ALX", 73), ("LA-DUA", 55), ("DAL-CAR", 92),
     ("ATL-WSP", 142), ("MIA-DR", 66), ("PHX-ST", 79)]),
   ("2026-01",
    [("ATL-UWS", 63), ("DAL-FB", 95), ("SEA-SODO", 84), ("DEN-PH", 93),
     ("LA-TOR", 73), ("DC-ALX", 73), ("LA-DUA", 58), ("DAL-CAR", 96),
     ("ATL-WSP", 141), ("MIA-DR", 66), ("PHX-ST", 86)]),
   ("2026-03",
    [("ATL-UWS", 64), ("DAL-FB", 106), ("SEA-SODO", 78), ("DEN-PH", 87),
     ("LA-TOR", 67), ("DC-ALX", 81), ("LA-DUA", 72), ("DAL-CAR", 108),
     ("ATL-WSP", 142), ("MIA-DR", 79), ("PHX-ST", 79)])]

/-- `AVG_MEMBER_DURATION` from the script (months, one decimal place). -/
def AVG_MEMBER_DURATION : List (String × ℚ) :=
  [("ATL-UWS", 16), ("ATL-WSP", 121/10), ("DAL-CAR", 125/10), ("DAL-FB", 164/10),
   ("DC-ALX", 126/10), ("DEN-PH", 176/10), ("LA-DUA", 119/10), ("LA-TOR", 142/10),
   ("MIA-DR", 129/10), ("PHX-ST", 119/10), ("SEA-SODO", 164/10)]

/-- The script's `AVG_MEMBER_DURATION[loc] || 0` read. -/
def jsDuration (loc : String) : ℚ := (lookupA AVG_MEMBER_DURATION loc).getD 0

/-! ## `getMemberCounts` -/

/-- `getMemberCounts(monthKey)` from the script: exact table hit, else the
fold over the sorted known months keeps the last known month `<= monthKey`,
starting from (and hence defaulting to) the *latest* known month. -/
def getMemberCounts (monthKey : String) : List (String × ℚ) :=
  match lookupA KNOWN_MEMBER_COUNTS monthKey with
  | some counts => counts
  | none =>
    let knownMonths := sortKeys (KNOWN_MEMBER_COUNTS.map Prod.fst)
    let closest := knownMonths.foldl
      (fun closest km => if jsStrLe km monthKey then km else closest)
      (knownMonths.getLastD "")
    (lookupA KNOWN_MEMBER_COUNTS closest).getD []

/-! ## `calculateKPIs` -/

/-- The ten KPI fields of one per-location (or aggregate totals) record,
exactly the ten properties the script writes; `none` is the JSON `null`
undefined marker. -/
structure KPIRecord where
  cac : Option ℚ
  corpCac : Option ℚ
  allInCac : Option ℚ
  avgRevPerMember : Option ℚ
  avgMemberDuration : Option ℚ
  ltv : Option ℚ
  mktgSpendToRev : Option ℚ
  corpMktgToRev : Option ℚ
  allInSpendToRev : Option ℚ
  costPerLead : Option ℚ
deriving DecidableEq

/-- Result of `calculateKPIs`: the per-location `data` object (written in
`LOCATIONS` order) and the aggregate `totals` record. -/
structure KPIResult where
  data : List (String × KPIRecord)
  totals : KPIRecord
deriving DecidableEq

/-- The script's `totalLocSpend`: `LOCATIONS.reduce((sum, l) => sum + (mktgSpend[l] || 0), 0)`. -/
def totalLocSpend (mktgSpend : JsMap) : ℚ :=
  LOCATIONS.foldl (fun sum l => sum + jsGet mktgSpend l) 0

/-- The script's `locShare` for one location: proportional to direct spend
when `totalLocSpend > 0`, else the uniform `1 / LOCATIONS.length`. -/
def locShare (mktgSpend : JsMap) (loc : String) : ℚ :=
  if 0 < totalLocSpend mktgSpend
  then jsGet mktgSpend loc / totalLocSpend mktgSpend
  else 1 / (LOCATIONS.length : ℚ)

/-- `corpAllocation[loc] = corpSpend * locShare`. -/
def corpAllocation (mktgSpend : JsMap) (loc : String) : ℚ :=
  jsGet mktgSpend "Corp" * locShare mktgSpend loc

/-- `salaryAllocation[loc] = SALARY_CONFIG.total * locShare`. -/
def salaryAllocation (mktgSpend : JsMap) (loc : String) : ℚ :=
  SALARY_CONFIG_total * locShare mktgSpend loc

/-- The per-location body of the `for (const loc of LOCATIONS)` loop in
`calculateKPIs`, producing `data[loc]`.  The `ltv` ternary condition is the
JavaScript truthiness of `avgRevPerMember && duration`. -/
def perLocKPIs (revenue mktgSpend leads newMembers memberCounts : JsMap)
    (loc : String) : KPIRecord :=
  let rev := jsGet revenue loc
  let spend := jsGet mktgSpend loc
  let corpAlloc := corpAllocation mktgSpend loc
  let salary := salaryAllocation mktgSpend loc
  let leadCount := jsGet leads loc
  let newMem := jsGet newMembers loc
  let members := jsGet memberCounts loc
  let duration := jsDuration loc
  let avgRevPerMember : Option ℚ := if 0 < members then some (rev / members) else none
  let cac : Option ℚ := if 0 < newMem then some (spend / newMem) else none
  let corpCac : Option ℚ := if 0 < newMem then some ((spend + corpAlloc) / newMem) else none
  let allInCac : Option ℚ :=
    if 0 < newMem then some ((spend + corpAlloc + salary) / newMem) else none
  let ltv : Option ℚ :=
    if jsTruthy avgRevPerMember && (duration != 0)
    then some (avgRevPerMember.getD 0 * duration) else none
  let mktgSpendToRev : Option ℚ := if 0 < rev then some (spend / rev) else none
  let corpMktgToRev : Option ℚ := if 0 < rev then some ((spend + corpAlloc) / rev) else none
  let allInSpendToRev : Option ℚ :=
    if 0 < rev then some ((spend + corpAlloc + salary) / rev) else none
  let costPerLead : Option ℚ := if 0 < leadCount then some (spend / leadCount) else none
  { cac := r2 cac
    corpCac := r2 corpCac
    allInCac := r2 allInCac
    avgRevPerMember := r2 avgRevPerMember
    avgMemberDuration := r2 (if duration != 0 then some duration else none)
    ltv := r2 ltv
    mktgSpendToRev := r2 mktgSpendToRev
    corpMktgToRev := r2 corpMktgToRev
    allInSpendToRev := r2 allInSpendToRev
    costPerLead := r2 costPerLead }

/-- Accumulator `totRev`. -/
def totRev (revenue : JsMap) : ℚ :=
  LOCATIONS.foldl (fun s l => s + jsGet revenue l) 0

/-- Accumulator `totSpend` (the same sum as `totalLocSpend`, re-accumulated
inside the loop). -/
def totSpend (mktgSpend : JsMap) : ℚ :=
  LOCATIONS.foldl (fun s l => s + jsGet mktgSpend l) 0

/-- Accumulator `totCorpAlloc`. -/
def totCorpAlloc (mktgSpend : JsMap) : ℚ :=
  LOCATIONS.foldl (fun s l => s + corpAllocation mktgSpend l) 0

/-- Accumulator `totSalary`. -/
def totSalary (mktgSpend : JsMap) : ℚ :=
  LOCATIONS.foldl (fun s l => s + salaryAllocation mktgSpend l) 0

/-- Accumulator `totMembers`. -/
def totMembers (memberCounts : JsMap) : ℚ :=
  LOCATIONS.foldl (fun s l => s + jsGet memberCounts l) 0

/-- Accumulator `totNewMembers`. -/
def totNewMembers (newMembers : JsMap) : ℚ :=
  LOCATIONS.foldl (fun s l => s + jsGet newMembers l) 0

/-- Accumulator `totLeads`. -/
def totLeads (leads : JsMap) : ℚ :=
  LOCATIONS.foldl (fun s l => s + jsGet leads l) 0

/-- Accumulator `durationWeightedSum`:
`if (duration > 0 && members > 0) durationWeightedSum += duration * members`. -/
def durationWeightedSum (memberCounts : JsMap) : ℚ :=
  LOCATIONS.foldl
    (fun s l =>
      s + (if 0 < jsDuration l ∧ 0 < jsGet memberCounts l
           then jsDuration l * jsGet memberCounts l else 0))
    0

/-- The `totals` record built at the end of `calculateKPIs`. -/
def totalsKPIs (revenue mktgSpend leads newMembers memberCounts : JsMap) : KPIRecord :=
  let tSpend := totSpend mktgSpend
  let tCorp := totCorpAlloc mktgSpend
  let tSal := totSalary mktgSpend
  let tRev := totRev revenue
  let tMem := totMembers memberCounts
  let tNew := totNewMembers newMembers
  let tLeads := totLeads leads
  let totDuration : Option ℚ :=
    if 0 < tMem then some (durationWeightedSum memberCounts / tMem) else none
  let totAvgRev : Option ℚ := if 0 < tMem then some (tRev / tMem) else none
  { cac := r2 (if 0 < tNew then some (tSpend / tNew) else none)
    corpCac := r2 (if 0 < tNew then some ((tSpend + tCorp) / tNew) else none)
    allInCac := r2 (if 0 < tNew then some ((tSpend + tCorp + tSal) / tNew) else none)
    avgRevPerMember := r2 totAvgRev
    avgMemberDuration := r2 totDuration
    ltv := r2 (if jsTruthy totAvgRev && jsTruthy totDuration
               then some (totAvgRev.getD 0 * totDuration.getD 0) else none)
    mktgSpendToRev := r2 (if 0 < tRev then some (tSpend / tRev) else none)
    corpMktgToRev := r2 (if 0 < tRev then some ((tSpend + tCorp) / tRev) else none)
    allInSpendToRev := r2 (if 0 < tRev then some ((tSpend + tCorp + tSal) / tRev) else none)
    costPerLead := r2 (if 0 < tLeads then some (tSpend / tLeads) else none) }

/-- `calculateKPIs(revenue, mktgSpend, leads, newMembers, memberCounts)`. -/
def calculateKPIs (revenue mktgSpend leads newMembers memberCounts : JsMap) : KPIResult :=
  { data := LOCATIONS.map
      (fun loc => (loc, perLocKPIs revenue mktgSpend leads newMembers memberCounts loc))
    totals := totalsKPIs revenue mktgSpend leads newMembers memberCounts }

/-! ## `getMonthRange` -/

/-- `String(n).padStart(2, "0")`. -/
def pad2 (n : ℕ) : String := (if n < 10 then "0" else "") ++ toString n

/-- Proleptic-Gregorian leap year, as implemented by ECMAScript `Date`. -/
def isLeapYear (y : ℤ) : Bool := y % 4 == 0 && (y % 100 != 0 || y % 400 == 0)

/-- Days in the 0-based month `m` of year `y`.  This models the script's
`new Date(yyyy, m + 1, 0).getDate()`: day `0` of the following month is the
last day of month `m` under ECMAScript `Date` normalization, whose day
counts follow the proleptic Gregorian calendar. -/
def daysInMonth (y : ℤ) (m : ℕ) : ℕ :=
  if m = 1 then (if isLeapYear y then 29 else 28)
  else if m = 3 ∨ m = 5 ∨ m = 8 ∨ m = 10 then 30
  else 31

/-- One month window `{key, start, end}`; `stop` is the JS `end` field
(`end` is a Lean keyword). -/
structure MonthWindow where
  key : String
  start : String
  stop : String
deriving DecidableEq

/-- The loop body of `getMonthRange` for absolute month number `t`
(`t = year * 12 + monthIndex`): `new Date(Y, M - i, 1)` normalizes the
possibly negative month index by floor-division, exactly `t.fdiv 12` /
`t.fmod 12`. -/
def windowOfMonth (t : ℤ) : MonthWindow :=
  let yyyy := t.fdiv 12
  let m := (t.fmod 12).toNat
  let mm := pad2 (m + 1)
  { key := toString yyyy ++ "-" ++ mm
    start := toString yyyy ++ "-" ++ mm ++ "-01"
    stop := toString yyyy ++ "-" ++ mm ++ "-" ++ pad2 (daysInMonth yyyy m) }

/-- `getMonthRange(monthsBack)` from the script, with the current date's
year and 0-based month made explicit (`now.getFullYear()`, `now.getMonth()`);
the JS loop runs `i = monthsBack` down to `1`, pushing the window of
calendar month `now - i`. -/
def getMonthRange (nowY : ℤ) (nowM : ℕ) (monthsBack : ℕ) : List MonthWindow :=
  (List.range monthsBack).map
    (fun (j : ℕ) => windowOfMonth (nowY * 12 + nowM - ((monthsBack : ℤ) - (j : ℤ))))

/-! ## The `main` month loop (refresh planner, error fallback, output build)

`main` is modelled over opaque per-month record types `α` (one month's
per-location `data`) and `β` (one month's `totals`): the baseline file's
records are copied verbatim, so their contents never matter to the loop.
A source-pull-plus-compute that throws for a month is a `compute` returning
`none`; success returns the `(data, totals)` pair for that month. -/

/-- A refresh decision for one month window. -/
inductive Decision where
  | reuse : Decision
  | recompute : Decision
deriving DecidableEq

/-- The script's cache test for the month at index `i` of `n` windows:
`existing.data?.[month.key] && !isRecent`, where
`isRecent = (month === months[n-1] || month === months[n-2])`, i.e. the
month is at index `n-1` or `n-2` (the two most recent windows). -/
def planDecision {α : Type} (exData : List (String × α)) (n i : ℕ) (key : String) :
    Decision :=
  if (lookupA exData key).isSome && !(i + 1 == n || i + 2 == n)
  then Decision.reuse else Decision.recompute

/-- The single map entry `{key: x}` written for a month, or nothing
(assigning `undefined` to a JSON property and stringifying drops it). -/
def optEntry {γ : Type} (key : String) (o : Option γ) : List (String × γ) :=
  o.elim [] (fun x => [(key, x)])

/-- One iteration of `main`'s month loop: reuse the cached record for older
cached months, otherwise recompute; on a recompute error (`compute = none`)
fall back to the cached record if present, else emit nothing for the month.
On the reuse/fallback path `result.totals[key]` is copied from the baseline
`totals` map, which (after `JSON.stringify` drops `undefined`) contributes
an entry only when the baseline has one. -/
def monthStep {α β : Type} (exData : List (String × α)) (exTot : List (String × β))
    (compute : String → Option (α × β)) (n i : ℕ) (key : String) :
    List (String × α) × List (String × β) :=
  if (lookupA exData key).isSome && !(i + 1 == n || i + 2 == n) then
    (optEntry key (lookupA exData key), optEntry key (lookupA exTot key))
  else
    match compute key with
    | some dt => ([(key, dt.1)], [(key, dt.2)])
    | none =>
      match lookupA exData key with
      | some d => ([(key, d)], optEntry key (lookupA exTot key))
      | none => ([], [])

/-- `main`'s month loop from index `i` on: each month appends its entries to
the accumulating `result.data` / `result.totals`, in window order. -/
def runFrom {α β : Type} (exData : List (String × α)) (exTot : List (String × β))
    (compute : String → Option (α × β)) (n : ℕ) : ℕ → List String →
    List (String × α) × List (String × β)
  | _, [] => ([], [])
  | i, key :: rest =>
    let s := monthStep exData exTot compute n i key
    let r := runFrom exData exTot compute n (i + 1) rest
    (s.1 ++ r.1, s.2 ++ r.2)

/-- The whole month loop of `main` over the current run's window keys. -/
def runMonths {α β : Type} (exData : List (String × α)) (exTot : List (String × β))
    (compute : String → Option (α × β)) (months : List String) :
    List (String × α) × List (String × β) :=
  runFrom exData exTot compute months.length 0 months

/-- The dataset object `main` writes (sans `lastUpdated` timestamp and the
constant `locations` list): `months` is rebuilt from the current windows and
`data` / `totals` start empty and are filled by the month loop, so the file
is replaced in full rather than merged. -/
structure Dataset (α β : Type) where
  months : List String
  dataM : List (String × α)
  totalsM : List (String × β)

/-- Build the run's output dataset from the baseline maps and the per-month
compute outcome. -/
def buildDataset {α β : Type} (exData : List (String × α)) (exTot : List (String × β))
    (compute : String → Option (α × β)) (months : List String) : Dataset α β :=
  { months := months
    dataM := (runMonths exData exTot compute months).1
    totalsM := (runMonths exData exTot compute months).2 }

/-! ## Concrete example inputs used by witnesses and counterexamples -/

/-- The empty input map (every property absent). -/
def exEmpty : JsMap := fun _ => none

/-- Example spend map: `{Corp: 50, "ATL-UWS": 100, "ATL-WSP": 100}`. -/
def exSpendAB : JsMap := fun k =>
  if k = "Corp" then some 50
  else if k = "ATL-UWS" then some 100
  else if k = "ATL-WSP" then some 100 else none

/-- Example new-members map: `{"ATL-UWS": 1, "ATL-WSP": 4}`. -/
def exNewAB : JsMap := fun k =>
  if k = "ATL-UWS" then some 1 else if k = "ATL-WSP" then some 4 else none

/-- Example map with a key outside the location enumeration and an explicit
zero where `exEmpty` has an absent key. -/
def exJunk : JsMap := fun k =>
  if k = "XYZ" then some 5 else if k = "ATL-UWS" then some 0 else none

/-- Example input map giving every key the value `1`. -/
def exOnes : JsMap := fun _ => some 1

/-- Example current-run window keys (4 windows; the last two are "recent"). -/
def exMonths : List String := ["2025-08", "2025-09", "2025-10", "2025-11"]

/-- Example baseline `data` month map (records abstracted to `ℕ`). -/
def exBaseData : List (String × ℕ) := [("2025-07", 1), ("2025-08", 2), ("2025-10", 3)]

/-- Example baseline `totals` month map. -/
def exBaseTot : List (String × ℕ) := [("2025-07", 11), ("2025-08", 12), ("2025-10", 13)]

/-- Example per-month compute that throws for `"2025-09"` (no baseline record). -/
def exCompute : String → Option (ℕ × ℕ) :=
  fun k => if k = "2025-09" then none else some (21, 22)

/-- Example per-month compute that throws for `"2025-10"` (baseline record present). -/
def exComputeB : String → Option (ℕ × ℕ) :=
  fun k => if k = "2025-10" then none else some (21, 22)

/-! ## Helper lemmas -/

/-- Lookup in a keyed map built over a key list hits the mapped value. -/
theorem lookupA_map_self {β : Type} (f : String → β) (L : List String) (k : String)
    (h : k ∈ L) : lookupA (L.map (fun l => (l, f l))) k = some (f k) := by
  induction L with
  | nil => cases h
  | cons x xs ih =>
    rcases List.mem_cons.mp h with hx | hx
    · subst hx
      simp [lookupA, List.find?]
    · by_cases hxk : x == k
      · have : x = k := eq_of_beq hxk
        subst this
        simp [lookupA, List.find?]
      · simp only [lookupA, List.map_cons, List.find?, hxk]
        exact ih hx

/-- C1: in `calculateKPIs`, every KPI ratio whose denominator is zero is the
explicit `null` marker (`none`) — `avgRevPerMember` when the location's
active-member count is zero, `cac`/`corpCac`/`allInCac` when its new-member
count is zero, the three spend-to-revenue ratios when its revenue is zero,
`costPerLead` when its lead count is zero, and `ltv` when an operand is
undefined or zero — never `0` (and `NaN` cannot arise over exact rationals),
and the marker passes through the two-decimal rounding `r2` unchanged. -/
theorem c1_zero_denominator_yields_null (vR vS vL vN vM : JsMap) (loc : String)
    (hloc : loc ∈ LOCATIONS) :
    lookupA (calculateKPIs vR vS vL vN vM).data loc
      = some (perLocKPIs vR vS vL vN vM loc)
    ∧ (jsGet vM loc = 0 → (perLocKPIs vR vS vL vN vM loc).avgRevPerMember = none)
    ∧ (jsGet vN loc = 0 →
        (perLocKPIs vR vS vL vN vM loc).cac = none ∧
        (perLocKPIs vR vS vL vN vM loc).corpCac = none ∧
        (perLocKPIs vR vS vL vN vM loc).allInCac = none)
    ∧ (jsGet vR loc = 0 →
        (perLocKPIs vR vS vL vN vM loc).mktgSpendToRev = none ∧
        (perLocKPIs vR vS vL vN vM loc).corpMktgToRev = none ∧
        (perLocKPIs vR vS vL vN vM loc).allInSpendToRev = none)
    ∧ (jsGet vL loc = 0 → (perLocKPIs vR vS vL vN vM loc).costPerLead = none)
    ∧ (jsGet vM loc = 0 ∨ jsGet vR loc = 0 ∨ jsDuration loc = 0 →
        (perLocKPIs vR vS vL vN vM loc).ltv = none)
    ∧ r2 none = none := by
  refine ⟨?_, ?_, ?_, ?_, ?_, ?_, rfl⟩
  · exact lookupA_map_self _ LOCATIONS loc hloc
  · intro h
    simp [perLocKPIs, h, r2]
  · intro h
    simp [perLocKPIs, h, r2]
  · intro h
    simp [perLocKPIs, h, r2]
  · intro h
    simp [perLocKPIs, h, r2]
  · intro h
    rcases h with h | h | h
    · simp [perLocKPIs, h, r2, jsTruthy]
    · by_cases hm : 0 < jsGet vM loc
      · simp [perLocKPIs, h, hm, r2, jsTruthy, zero_div]
      · simp [perLocKPIs, h, hm, r2, jsTruthy]
    · simp [perLocKPIs, h, r2, jsTruthy]

/-- Witness for C1 at the all-empty input maps and location `"ATL-UWS"`. -/
theorem c1_witness :
    ("ATL-UWS" : String) ∈ LOCATIONS
    ∧ (perLocKPIs (fun _ => none) (fun _ => none) (fun _ => none) (fun _ => none)
        (fun _ => none) "ATL-UWS").cac = none
    ∧ (perLocKPIs (fun _ => none) (fun _ => none) (fun _ => none) (fun _ => none)
        (fun _ => none) "ATL-UWS").avgRevPerMember = none
    ∧ (perLocKPIs (fun _ => none) (fun _ => none) (fun _ => none) (fun _ => none)
        (fun _ => none) "ATL-UWS").ltv = none := by
  have h := c1_zero_denominator_yields_null (fun _ => none) (fun _ => none)
    (fun _ => none) (fun _ => none) (fun _ => none) "ATL-UWS" (by decide)
  exact ⟨by decide, (h.2.2.1 rfl).1, h.2.1 rfl, h.2.2.2.2.2.1 (Or.inl rfl)⟩

/-- Sum of `c * (x / T)` over a list of numerators. -/
theorem sum_map_mul_div (c T : ℚ) (xs : List ℚ) :
    (xs.map (fun x => c * (x / T))).sum = c * xs.sum / T := by
  induction xs with
  | nil => simp
  | cons x xs ih =>
    simp only [List.map_cons, List.sum_cons, ih]
    ring

/-- `totalLocSpend` as a `map`-`sum`. -/
theorem totalLocSpend_eq_sum (vS : JsMap) :
    totalLocSpend vS = (LOCATIONS.map (jsGet vS)).sum := by
  simp [totalLocSpend, LOCATIONS]
  ring

/-- Summing `c * locShare` over the locations redistributes `c` exactly. -/
theorem sum_locShare (vS : JsMap) (c : ℚ) :
    (LOCATIONS.map (fun l => c * locShare vS l)).sum = c := by
  by_cases hT : 0 < totalLocSpend vS
  · have h1 : LOCATIONS.map (fun l => c * locShare vS l)
        = (LOCATIONS.map (jsGet vS)).map (fun x => c * (x / totalLocSpend vS)) := by
      rw [List.map_map]
      apply List.map_congr_left
      intro l _
      simp [locShare, hT, Function.comp]
    rw [h1, sum_map_mul_div, ← totalLocSpend_eq_sum, mul_div_assoc,
      div_self (ne_of_gt hT), mul_one]
  · simp only [locShare, hT, if_false]
    simp [LOCATIONS]
    ring

/-- C2: the corp-spend allocation sums exactly (as rationals) to
`spend["Corp"]` and the payroll allocation to the configured total `72082`;
with non-negative direct spend (the source maps are sign-normalized
amounts), a nonzero `totalLocSpend` gives every location the proportional
share `spend[loc] / totalLocSpend`, and a zero `totalLocSpend` gives every
location the uniform share `1 / LOCATIONS.length`. -/
theorem c2_allocation_redistributes_total (vS : JsMap)
    (hnn : ∀ l ∈ LOCATIONS, 0 ≤ jsGet vS l) :
    (LOCATIONS.map (corpAllocation vS)).sum = jsGet vS "Corp"
    ∧ (LOCATIONS.map (salaryAllocation vS)).sum = SALARY_CONFIG_total
    ∧ SALARY_CONFIG_total = 72082
    ∧ (totalLocSpend vS ≠ 0 → ∀ l ∈ LOCATIONS,
        corpAllocation vS l = jsGet vS "Corp" * (jsGet vS l / totalLocSpend vS)
        ∧ salaryAllocation vS l = SALARY_CONFIG_total * (jsGet vS l / totalLocSpend vS))
    ∧ (totalLocSpend vS = 0 → ∀ l ∈ LOCATIONS,
        corpAllocation vS l = jsGet vS "Corp" * (1 / (LOCATIONS.length : ℚ))
        ∧ salaryAllocation vS l = SALARY_CONFIG_total * (1 / (LOCATIONS.length : ℚ))) := by
  have hTnn : 0 ≤ totalLocSpend vS := by
    rw [totalLocSpend_eq_sum]
    apply List.sum_nonneg
    intro x hx
    rcases List.mem_map.mp hx with ⟨l, hl, rfl⟩
    exact hnn l hl
  refine ⟨?_, ?_, rfl, ?_, ?_⟩
  · simpa [corpAllocation] using sum_locShare vS (jsGet vS "Corp")
  · simpa [salaryAllocation] using sum_locShare vS SALARY_CONFIG_total
  · intro hne l _
    have hT : 0 < totalLocSpend vS := lt_of_le_of_ne hTnn (Ne.symm hne)
    constructor
    · simp [corpAllocation, locShare, hT]
    · simp [salaryAllocation, locShare, hT]
  · intro h0 l _
    have hT : ¬ 0 < totalLocSpend vS := by
      rw [h0]
      exact lt_irrefl 0
    constructor
    · simp [corpAllocation, locShare, hT]
    · simp [salaryAllocation, locShare, hT]

/-- Witness for C2 at a concrete spend map with corp spend `50` and two
spending locations. -/
theorem c2_witness :
    (LOCATIONS.map (corpAllocation exSpendAB)).sum = jsGet exSpendAB "Corp"
    ∧ (LOCATIONS.map (salaryAllocation exSpendAB)).sum = SALARY_CONFIG_total
    ∧ jsGet exSpendAB "Corp" = 50 := by
  have hnn : ∀ l ∈ LOCATIONS, 0 ≤ jsGet exSpendAB l := by
    intro l hl
    fin_cases hl <;> simp [jsGet, exSpendAB]
  have h := c2_allocation_redistributes_total exSpendAB hnn
  exact ⟨h.1, h.2.1, by simp [jsGet, exSpendAB]⟩

/-- The loop accumulators (`reduce`/`+=` over `LOCATIONS`) are list sums. -/
theorem foldl_add_eq_sum (f : String → ℚ) (L : List String) :
    ∀ a : ℚ, L.foldl (fun s l => s + f l) a = a + (L.map f).sum := by
  induction L with
  | nil =>
    intro a
    simp
  | cons x xs ih =>
    intro a
    simp [List.foldl, ih, add_assoc]

/-- C3: every aggregate ratio in the `totals` record is the pooled ratio of
summed numerators over summed denominators across all locations — e.g.
aggregate CAC is `Σ spend / Σ newMembers` rounded to two decimals — and at a
concrete 2-location input the pooled aggregate CAC (40) differs from the
arithmetic mean (62.5) of the per-location CAC values (100 and 25). -/
theorem c3_totals_pool_sums (vR vS vL vN vM : JsMap)
    (hN : 0 < (LOCATIONS.map (jsGet vN)).sum)
    (hR : 0 < (LOCATIONS.map (jsGet vR)).sum)
    (hL : 0 < (LOCATIONS.map (jsGet vL)).sum)
    (hM : 0 < (LOCATIONS.map (jsGet vM)).sum) :
    ((calculateKPIs vR vS vL vN vM).totals.cac
      = some (round2 ((LOCATIONS.map (jsGet vS)).sum / (LOCATIONS.map (jsGet vN)).sum))
    ∧ (calculateKPIs vR vS vL vN vM).totals.corpCac
      = some (round2 (((LOCATIONS.map (jsGet vS)).sum
          + (LOCATIONS.map (corpAllocation vS)).sum) / (LOCATIONS.map (jsGet vN)).sum))
    ∧ (calculateKPIs vR vS vL vN vM).totals.allInCac
      = some (round2 (((LOCATIONS.map (jsGet vS)).sum
          + (LOCATIONS.map (corpAllocation vS)).sum
          + (LOCATIONS.map (salaryAllocation vS)).sum) / (LOCATIONS.map (jsGet vN)).sum))
    ∧ (calculateKPIs vR vS vL vN vM).totals.mktgSpendToRev
      = some (round2 ((LOCATIONS.map (jsGet vS)).sum / (LOCATIONS.map (jsGet vR)).sum))
    ∧ (calculateKPIs vR vS vL vN vM).totals.corpMktgToRev
      = some (round2 (((LOCATIONS.map (jsGet vS)).sum
          + (LOCATIONS.map (corpAllocation vS)).sum) / (LOCATIONS.map (jsGet vR)).sum))
    ∧ (calculateKPIs vR vS vL vN vM).totals.allInSpendToRev
      = some (round2 (((LOCATIONS.map (jsGet vS)).sum
          + (LOCATIONS.map (corpAllocation vS)).sum
          + (LOCATIONS.map (salaryAllocation vS)).sum) / (LOCATIONS.map (jsGet vR)).sum))
    ∧ (calculateKPIs vR vS vL vN vM).totals.costPerLead
      = some (round2 ((LOCATIONS.map (jsGet vS)).sum / (LOCATIONS.map (jsGet vL)).sum))
    ∧ (calculateKPIs vR vS vL vN vM).totals.avgRevPerMember
      = some (round2 ((LOCATIONS.map (jsGet vR)).sum / (LOCATIONS.map (jsGet vM)).sum)))
    ∧ ((calculateKPIs exEmpty exSpendAB exEmpty exNewAB exEmpty).totals.cac = some 40
    ∧ (perLocKPIs exEmpty exSpendAB exEmpty exNewAB exEmpty "ATL-UWS").cac = some 100
    ∧ (perLocKPIs exEmpty exSpendAB exEmpty exNewAB exEmpty "ATL-WSP").cac = some 25
    ∧ (40 : ℚ) ≠ (100 + 25) / 2) := by
  have eS : totSpend vS = (LOCATIONS.map (jsGet vS)).sum := by
    rw [totSpend, foldl_add_eq_sum, zero_add]
  have eR : totRev vR = (LOCATIONS.map (jsGet vR)).sum := by
    rw [totRev, foldl_add_eq_sum, zero_add]
  have eN : totNewMembers vN = (LOCATIONS.map (jsGet vN)).sum := by
    rw [totNewMembers, foldl_add_eq_sum, zero_add]
  have eL : totLeads vL = (LOCATIONS.map (jsGet vL)).sum := by
    rw [totLeads, foldl_add_eq_sum, zero_add]
  have eM : totMembers vM = (LOCATIONS.map (jsGet vM)).sum := by
    rw [totMembers, foldl_add_eq_sum, zero_add]
  have eC : totCorpAlloc vS = (LOCATIONS.map (corpAllocation vS)).sum := by
    rw [totCorpAlloc, foldl_add_eq_sum, zero_add]
  have eSal : totSalary vS = (LOCATIONS.map (salaryAllocation vS)).sum := by
    rw [totSalary, foldl_add_eq_sum, zero_add]
  have hN' : 0 < totNewMembers vN := by rw [eN]; exact hN
  have hR' : 0 < totRev vR := by rw [eR]; exact hR
  have hL' : 0 < totLeads vL := by rw [eL]; exact hL
  have hM' : 0 < totMembers vM := by rw [eM]; exact hM
  constructor
  · refine ⟨?_, ?_, ?_, ?_, ?_, ?_, ?_, ?_⟩ <;>
      simp [calculateKPIs, totalsKPIs, r2, hN', hR', hL', hM', eS, eR, eN, eL, eM, eC, eSal,
        hN, hR, hL, hM]
  · refine ⟨?_, ?_, ?_, by norm_num⟩
    · have e1 : totSpend exSpendAB = 200 := by
        simp [totSpend, LOCATIONS, jsGet, exSpendAB]
        norm_num
      have e2 : totNewMembers exNewAB = 5 := by
        simp [totNewMembers, LOCATIONS, jsGet, exNewAB]
        norm_num
      have h5 : (0 : ℚ) < 5 := by norm_num
      simp [calculateKPIs, totalsKPIs, r2, e1, e2, h5]
      norm_num [round2]
    · simp [perLocKPIs, jsGet, exSpendAB, exNewAB, exEmpty, r2]
      norm_num [round2]
    · simp [perLocKPIs, jsGet, exSpendAB, exNewAB, exEmpty, r2]
      norm_num [round2]

/-- Witness for C3 at the all-ones input maps (all pooled denominators 11). -/
theorem c3_witness :
    (0 : ℚ) < (LOCATIONS.map (jsGet exOnes)).sum
    ∧ (calculateKPIs exOnes exOnes exOnes exOnes exOnes).totals.cac
      = some (round2 ((LOCATIONS.map (jsGet exOnes)).sum
          / (LOCATIONS.map (jsGet exOnes)).sum)) := by
  have hpos : (0 : ℚ) < (LOCATIONS.map (jsGet exOnes)).sum := by
    norm_num [LOCATIONS, jsGet, exOnes]
  exact ⟨hpos,
    ((c3_totals_pool_sums exOnes exOnes exOnes exOnes exOnes hpos hpos hpos hpos).1).1⟩

/-- The guarded `durationWeightedSum` term equals the plain product when the
duration is positive and the member count non-negative (a zero count
contributes zero either way). -/
theorem weighted_term_eq (l : String) (hd : 0 < jsDuration l) (m : ℚ) (hm : 0 ≤ m) :
    (if 0 < jsDuration l ∧ 0 < m then jsDuration l * m else 0) = jsDuration l * m := by
  by_cases h : 0 < m
  · rw [if_pos ⟨hd, h⟩]
  · have hm0 : m = 0 := le_antisymm (not_lt.mp h) hm
    rw [hm0, mul_zero, if_neg]
    intro hc
    exact lt_irrefl 0 hc.2

/-- Every enumerated location has a positive configured tenure. -/
theorem jsDuration_pos (l : String) (hl : l ∈ LOCATIONS) : 0 < jsDuration l := by
  fin_cases hl <;> simp [jsDuration, lookupA, AVG_MEMBER_DURATION, List.find?]

/-- With non-negative member counts, `durationWeightedSum` is exactly
`Σ tenure[loc] * members[loc]` over all enumerated locations. -/
theorem durationWeightedSum_eq_sum (vM : JsMap)
    (hnn : ∀ l ∈ LOCATIONS, 0 ≤ jsGet vM l) :
    durationWeightedSum vM
      = (LOCATIONS.map (fun l => jsDuration l * jsGet vM l)).sum := by
  rw [durationWeightedSum]
  rw [(foldl_add_eq_sum
    (fun l => if 0 < jsDuration l ∧ 0 < jsGet vM l
              then jsDuration l * jsGet vM l else 0) LOCATIONS 0).trans (zero_add _)]
  apply congrArg List.sum
  apply List.map_congr_left
  intro l hl
  exact weighted_term_eq l (jsDuration_pos l hl) _ (hnn l hl)

/-- C7: with non-negative member counts, the aggregate `avgMemberDuration`
is the member-count-weighted mean `Σ(tenure × members) / Σ members` over all
enumerated locations, rounded to two decimals, and is the `null` marker when
`Σ members = 0`. -/
theorem c7_weighted_average_tenure (vR vS vL vN vM : JsMap)
    (hnn : ∀ l ∈ LOCATIONS, 0 ≤ jsGet vM l) :
    (0 < (LOCATIONS.map (jsGet vM)).sum →
      (calculateKPIs vR vS vL vN vM).totals.avgMemberDuration
        = some (round2 ((LOCATIONS.map (fun l => jsDuration l * jsGet vM l)).sum
            / (LOCATIONS.map (jsGet vM)).sum)))
    ∧ ((LOCATIONS.map (jsGet vM)).sum = 0 →
      (calculateKPIs vR vS vL vN vM).totals.avgMemberDuration = none) := by
  have eM : totMembers vM = (LOCATIONS.map (jsGet vM)).sum := by
    rw [totMembers, foldl_add_eq_sum, zero_add]
  have eW := durationWeightedSum_eq_sum vM hnn
  constructor
  · intro hpos
    have hM' : 0 < totMembers vM := by rw [eM]; exact hpos
    simp [calculateKPIs, totalsKPIs, r2, hM', eM, eW, hpos]
  · intro h0
    have hM' : ¬ 0 < totMembers vM := by
      rw [eM, h0]
      exact lt_irrefl 0
    simp [calculateKPIs, totalsKPIs, r2, hM']

/-- Witness for C7 at one member per location (`Σ members = 11`). -/
theorem c7_witness :
    (0 : ℚ) < (LOCATIONS.map (jsGet exOnes)).sum
    ∧ (calculateKPIs exEmpty exEmpty exEmpty exEmpty exOnes).totals.avgMemberDuration
      = some (round2 ((LOCATIONS.map (fun l => jsDuration l * jsGet exOnes l)).sum
          / (LOCATIONS.map (jsGet exOnes)).sum)) := by
  have hnn : ∀ l ∈ LOCATIONS, 0 ≤ jsGet exOnes l := by
    intro l _
    norm_num [jsGet, exOnes]
  have hpos : (0 : ℚ) < (LOCATIONS.map (jsGet exOnes)).sum := by
    norm_num [LOCATIONS, jsGet, exOnes]
  exact ⟨hpos,
    (c7_weighted_average_tenure exEmpty exEmpty exEmpty exEmpty exOnes hnn).1 hpos⟩

/-- C5 counterexample: for `"2025-01"` no known month is `<=` the target,
yet `getMemberCounts` returns the entry of the *latest* known month
(`"2026-03"`), not the earliest (`"2025-12"`). -/
theorem c5_counterexample :
    lookupA KNOWN_MEMBER_COUNTS "2025-01" = none
    ∧ (∀ km ∈ KNOWN_MEMBER_COUNTS.map Prod.fst, jsStrLe km "2025-01" = false)
    ∧ getMemberCounts "2025-01" = (lookupA KNOWN_MEMBER_COUNTS "2026-03").getD []
    ∧ getMemberCounts "2025-01" ≠ (lookupA KNOWN_MEMBER_COUNTS "2025-12").getD [] := by
  refine ⟨by decide, by decide, by decide, by decide⟩

/-- C5 (amended): an exact table hit is returned as-is; otherwise the result
is the entry of the latest known month `<=` the target, and when no known
month is `<=` the target it is the entry of the *latest* known month (the
known keys are listed in ascending order, so `getLastD` is the latest). -/
theorem c5_nearest_month_fallback (monthKey : String) :
    (∀ c, lookupA KNOWN_MEMBER_COUNTS monthKey = some c →
      getMemberCounts monthKey = c)
    ∧ (lookupA KNOWN_MEMBER_COUNTS monthKey = none →
        (((KNOWN_MEMBER_COUNTS.map Prod.fst).filter
            (fun km => jsStrLe km monthKey)) ≠ [] →
          getMemberCounts monthKey
            = (lookupA KNOWN_MEMBER_COUNTS
                (((KNOWN_MEMBER_COUNTS.map Prod.fst).filter
                  (fun km => jsStrLe km monthKey)).getLastD "")).getD [])
        ∧ ((KNOWN_MEMBER_COUNTS.map Prod.fst).filter
            (fun km => jsStrLe km monthKey) = [] →
          getMemberCounts monthKey
            = (lookupA KNOWN_MEMBER_COUNTS
                ((KNOWN_MEMBER_COUNTS.map Prod.fst).getLastD "")).getD [])) := by
  constructor
  · intro c hc
    simp [getMemberCounts, hc]
  · intro hnone
    have hs : sortKeys (KNOWN_MEMBER_COUNTS.map Prod.fst)
        = ["2025-12", "2026-01", "2026-03"] := by decide
    rw [getMemberCounts, hnone, hs]
    by_cases h0 : jsStrLe "2025-12" monthKey = true
    <;> by_cases h1 : jsStrLe "2026-01" monthKey = true
    <;> by_cases h3 : jsStrLe "2026-03" monthKey = true
    <;> simp [List.foldl, h0, h1, h3, KNOWN_MEMBER_COUNTS, List.filter]

/-- Witness for C5 at `"2026-02"`: not in the table, and `"2026-01"` is the
latest known month `<=` it. -/
theorem c5_witness :
    lookupA KNOWN_MEMBER_COUNTS "2026-02" = none
    ∧ getMemberCounts "2026-02" = (lookupA KNOWN_MEMBER_COUNTS "2026-01").getD [] := by
  have h := ((c5_nearest_month_fallback "2026-02").2 (by decide)).1 (by decide)
  have e : ((KNOWN_MEMBER_COUNTS.map Prod.fst).filter
      (fun km => jsStrLe km "2026-02")).getLastD "" = "2026-01" := by decide
  rw [e] at h
  exact ⟨by decide, h⟩

/-- C8: for any current date and `monthsBack ≥ 1`, `getMonthRange` yields
exactly `monthsBack` windows, the `j`-th being the calendar month
`current - (monthsBack - j)` — so the windows are consecutive months, oldest
first, ending at the month immediately before the current month — and every
window's `start` is day 01 and `stop` the month's last day as given by the
Gregorian `daysInMonth` (29 in a leap-year February). -/
theorem c8_month_range_windows (nowY : ℤ) (nowM : ℕ) (monthsBack : ℕ)
    (hM : nowM < 12) (hmb : 1 ≤ monthsBack) :
    (getMonthRange nowY nowM monthsBack).length = monthsBack
    ∧ (∀ j, j < monthsBack →
        (getMonthRange nowY nowM monthsBack)[j]?
          = some (windowOfMonth (nowY * 12 + nowM - monthsBack + j)))
    ∧ (getMonthRange nowY nowM monthsBack).getLast?
        = some (windowOfMonth (nowY * 12 + nowM - 1))
    ∧ (∀ t : ℤ, (windowOfMonth t).start = (windowOfMonth t).key ++ "-01"
        ∧ (windowOfMonth t).stop
          = (windowOfMonth t).key ++ "-" ++ pad2 (daysInMonth (t.fdiv 12) (t.fmod 12).toNat))
    ∧ (∀ y : ℤ, daysInMonth y 1 = if isLeapYear y then 29 else 28) := by
  have hidx : ∀ j, j < monthsBack →
      (getMonthRange nowY nowM monthsBack)[j]?
        = some (windowOfMonth (nowY * 12 + nowM - monthsBack + j)) := by
    intro j hj
    rw [getMonthRange, List.getElem?_map, List.getElem?_range hj]
    show some (windowOfMonth (nowY * 12 + nowM - ((monthsBack : ℤ) - (j : ℤ))))
      = some (windowOfMonth (nowY * 12 + nowM - monthsBack + j))
    apply congrArg (fun t => some (windowOfMonth t))
    omega
  refine ⟨by simp [getMonthRange], hidx, ?_, ?_, ?_⟩
  · rw [List.getLast?_eq_getElem?]
    have hlen : (getMonthRange nowY nowM monthsBack).length = monthsBack := by
      simp [getMonthRange]
    rw [hlen]
    rw [hidx (monthsBack - 1) (by omega)]
    apply congrArg (fun t => some (windowOfMonth t))
    omega
  · intro t
    exact ⟨rfl, rfl⟩
  · intro y
    simp [daysInMonth]

/-- Witness for C8 at the reference date April 2024 with a 12-month
lookback: 12 windows, the 11th (index 10) being leap-year February 2024
with end day 29, and the last being March 2024 (the month immediately
before the reference month). -/
theorem c8_witness :
    (getMonthRange 2024 3 12).length = 12
    ∧ (getMonthRange 2024 3 12)[10]? = some (windowOfMonth (2024 * 12 + 3 - 12 + 10))
    ∧ windowOfMonth (2024 * 12 + 3 - 12 + 10) = ⟨"2024-02", "2024-02-01", "2024-02-29"⟩
    ∧ (getMonthRange 2024 3 12).getLast? = some (windowOfMonth (2024 * 12 + 3 - 1))
    ∧ windowOfMonth (2024 * 12 + 3 - 1) = ⟨"2024-03", "2024-03-01", "2024-03-31"⟩ := by
  have h := c8_month_range_windows 2024 3 12 (by decide) (by decide)
  exact ⟨h.1, h.2.1 10 (by decide), by decide, h.2.2.1, by decide⟩

/-- Lookup distributes over appended maps, preferring the left entries. -/
theorem lookupA_append {α : Type} (a b : List (String × α)) (k : String) :
    lookupA (a ++ b) k = (lookupA a k).or (lookupA b k) := by
  simp only [lookupA, List.find?_append]
  cases List.find? (fun p => p.1 == k) a <;> simp

/-- Lookup in a singleton map. -/
theorem lookupA_singleton {α : Type} (key k : String) (x : α) :
    lookupA [(key, x)] k = if key = k then some x else none := by
  by_cases h : key = k
  · subst h
    simp [lookupA, List.find?]
  · rw [lookupA]
    simp only [List.find?]
    rw [show (key == k) = false from beq_eq_false_iff_ne.mpr h]
    simp [h]

/-- Lookup when the map has no matching key. -/
theorem lookupA_eq_none_iff {α : Type} (m : List (String × α)) (k : String) :
    lookupA m k = none ↔ k ∉ m.map Prod.fst := by
  induction m with
  | nil => simp [lookupA]
  | cons p t ih =>
    by_cases h : p.1 = k
    · simp [lookupA, List.find?, h]
    · simp only [lookupA, List.find?, List.map_cons, List.mem_cons] at *
      rw [show (p.1 == k) = false from beq_eq_false_iff_ne.mpr h]
      simpa [h, Ne.symm h] using ih

/-- Lookup in an optional single entry. -/
theorem lookupA_optEntry {γ : Type} (key k : String) (o : Option γ) :
    lookupA (optEntry key o) k = if key = k then o else none := by
  cases o with
  | none =>
    by_cases h : key = k <;> simp [optEntry, lookupA, h]
  | some x =>
    simp [optEntry, lookupA_singleton]

/-- Both output lists of one `monthStep` carry only that month's key. -/
theorem lookupA_monthStep_ne {α β : Type} (exData : List (String × α))
    (exTot : List (String × β)) (compute : String → Option (α × β)) (n i : ℕ)
    (key k : String) (hk : key ≠ k) :
    lookupA (monthStep exData exTot compute n i key).1 k = none
    ∧ lookupA (monthStep exData exTot compute n i key).2 k = none := by
  by_cases hc : ((lookupA exData key).isSome && !(i + 1 == n || i + 2 == n)) = true
  · rw [monthStep, if_pos hc]
    exact ⟨by simp [lookupA_optEntry, hk], by simp [lookupA_optEntry, hk]⟩
  · rw [monthStep, if_neg hc]
    cases hcmp : compute key with
    | none =>
      cases hd : lookupA exData key with
      | none =>
        exact ⟨rfl, rfl⟩
      | some d =>
        exact ⟨by simp [lookupA_singleton, hk], by simp [lookupA_optEntry, hk]⟩
    | some dt =>
      exact ⟨by simp [lookupA_singleton, hk], by simp [lookupA_singleton, hk]⟩

/-- C4: the refresh decision for the window at index `i` of `n` is REUSE
exactly when the window is *not* one of the two most recent (`i + 2 < n`)
and the baseline `data` map contains its month key; equivalently it is
RECOMPUTE exactly when the window is one of the two most recent —
regardless of the cache — or the baseline lacks the key. -/
theorem c4_refresh_decision {α : Type} (exData : List (String × α)) (n i : ℕ)
    (key : String) (hi : i < n) :
    (planDecision exData n i key = Decision.reuse
      ↔ ((lookupA exData key).isSome = true ∧ i + 2 < n))
    ∧ (planDecision exData n i key = Decision.recompute
      ↔ (i + 1 = n ∨ i + 2 = n ∨ lookupA exData key = none)) := by
  cases hlk : lookupA exData key
  <;> by_cases h1 : i + 1 = n
  <;> by_cases h2 : i + 2 = n
  <;> simp [planDecision, hlk, h1, h2]
  <;> omega

/-- Witness for C4 on a concrete 4-window run and baseline: an old cached
month is REUSE; the last and second-to-last windows are RECOMPUTE even
though `"2025-10"` is cached; an old uncached month is RECOMPUTE. -/
theorem c4_witness :
    planDecision exBaseData 4 0 "2025-08" = Decision.reuse
    ∧ planDecision exBaseData 4 2 "2025-10" = Decision.recompute
    ∧ planDecision exBaseData 4 3 "2025-11" = Decision.recompute
    ∧ planDecision exBaseData 4 1 "2025-09" = Decision.recompute := by
  refine ⟨(c4_refresh_decision exBaseData 4 0 "2025-08" (by decide)).1.mpr
      ⟨by decide, by decide⟩,
    (c4_refresh_decision exBaseData 4 2 "2025-10" (by decide)).2.mpr
      (Or.inr (Or.inl rfl)),
    (c4_refresh_decision exBaseData 4 3 "2025-11" (by decide)).2.mpr (Or.inl rfl),
    (c4_refresh_decision exBaseData 4 1 "2025-09" (by decide)).2.mpr
      (Or.inr (Or.inr (by decide)))⟩

/-- A key outside the processed window list never appears in the loop
output. -/
theorem runFrom_notmem {α β : Type} (exData : List (String × α))
    (exTot : List (String × β)) (compute : String → Option (α × β)) (n : ℕ)
    (k : String) :
    ∀ (ms : List String) (i : ℕ), k ∉ ms →
      lookupA (runFrom exData exTot compute n i ms).1 k = none
      ∧ lookupA (runFrom exData exTot compute n i ms).2 k = none := by
  intro ms
  induction ms with
  | nil =>
    intro i _
    exact ⟨rfl, rfl⟩
  | cons key rest ih =>
    intro i hk
    have hne : key ≠ k := by
      intro h
      exact hk (h ▸ List.mem_cons_self key rest)
    have hkr : k ∉ rest := fun h => hk (List.mem_cons_of_mem _ h)
    simp only [runFrom]
    constructor
    · rw [lookupA_append, (lookupA_monthStep_ne exData exTot compute n i key k hne).1,
        (ih (i + 1) hkr).1]
      rfl
    · rw [lookupA_append, (lookupA_monthStep_ne exData exTot compute n i key k hne).2,
        (ih (i + 1) hkr).2]
      rfl

/-- With distinct window keys, the loop output's entries for the `j`-th
window are exactly that window's own `monthStep` output: a failure in one
month never disturbs another month's entries. -/
theorem runFrom_lookup {α β : Type} (exData : List (String × α))
    (exTot : List (String × β)) (compute : String → Option (α × β)) (n : ℕ) :
    ∀ (ms : List String) (i : ℕ), ms.Nodup → ∀ j (hj : j < ms.length),
      lookupA (runFrom exData exTot compute n i ms).1 (ms.get ⟨j, hj⟩)
        = lookupA (monthStep exData exTot compute n (i + j) (ms.get ⟨j, hj⟩)).1
            (ms.get ⟨j, hj⟩)
      ∧ lookupA (runFrom exData exTot compute n i ms).2 (ms.get ⟨j, hj⟩)
        = lookupA (monthStep exData exTot compute n (i + j) (ms.get ⟨j, hj⟩)).2
            (ms.get ⟨j, hj⟩) := by
  intro ms
  induction ms with
  | nil =>
    intro i _ j hj
    exact absurd hj (Nat.not_lt_zero j)
  | cons key rest ih =>
    intro i hnd j hj
    have hnotin : key ∉ rest := (List.nodup_cons.mp hnd).1
    have hnd' : rest.Nodup := (List.nodup_cons.mp hnd).2
    rcases j with _ | j
    · simp only [List.get, runFrom, Nat.add_zero]
      constructor
      · rw [lookupA_append,
          (runFrom_notmem exData exTot compute n key rest (i + 1) hnotin).1,
          Option.or_none]
      · rw [lookupA_append,
          (runFrom_notmem exData exTot compute n key rest (i + 1) hnotin).2,
          Option.or_none]
    · have hj' : j < rest.length := Nat.lt_of_succ_lt_succ hj
      have hmem : rest.get ⟨j, hj'⟩ ∈ rest := List.get_mem rest j hj'
      have hne : key ≠ rest.get ⟨j, hj'⟩ := by
        intro h
        exact hnotin (h ▸ hmem)
      have harith : i + (j + 1) = (i + 1) + j := by omega
      simp only [List.get, runFrom, harith]
      constructor
      · rw [lookupA_append,
          (lookupA_monthStep_ne exData exTot compute n i key _ hne).1,
          Option.none_or]
        exact (ih (i + 1) hnd' j hj').1
      · rw [lookupA_append,
          (lookupA_monthStep_ne exData exTot compute n i key _ hne).2,
          Option.none_or]
        exact (ih (i + 1) hnd' j hj').2

/-- A month whose recompute fails but whose baseline record exists yields
the baseline entries verbatim. -/
theorem monthStep_none_cached {α β : Type} (exData : List (String × α))
    (exTot : List (String × β)) (compute : String → Option (α × β)) (n i : ℕ)
    (key : String) (hcmp : compute key = none) (d : α)
    (hd : lookupA exData key = some d) :
    (monthStep exData exTot compute n i key).1 = [(key, d)]
    ∧ (monthStep exData exTot compute n i key).2
        = optEntry key (lookupA exTot key) := by
  by_cases hc : ((lookupA exData key).isSome && !(i + 1 == n || i + 2 == n)) = true
  · rw [monthStep, if_pos hc, hd]
    exact ⟨rfl, rfl⟩
  · rw [monthStep, if_neg hc, hcmp, hd]
    exact ⟨rfl, rfl⟩

/-- A month whose recompute fails with no baseline record emits nothing. -/
theorem monthStep_none_uncached {α β : Type} (exData : List (String × α))
    (exTot : List (String × β)) (compute : String → Option (α × β)) (n i : ℕ)
    (key : String) (hcmp : compute key = none)
    (hd : lookupA exData key = none) :
    (monthStep exData exTot compute n i key).1 = []
    ∧ (monthStep exData exTot compute n i key).2 = [] := by
  have hc : ((lookupA exData key).isSome && !(i + 1 == n || i + 2 == n)) = false := by
    rw [hd]
    rfl
  rw [monthStep, hc, hcmp, hd]
  exact ⟨rfl, rfl⟩

/-- C6: if recomputing the `i`-th month fails, the output carries the
baseline's `data` and `totals` entries for that month key unchanged when
the baseline has them, and carries no entry at all for that key when it
does not; and every other month's output entries are exactly its own
step's output, so the failure aborts nothing else. -/
theorem c6_failed_month_fallback {α β : Type} (exData : List (String × α))
    (exTot : List (String × β)) (compute : String → Option (α × β))
    (months : List String) (hnd : months.Nodup) (i : ℕ) (hi : i < months.length)
    (hfail : compute (months.get ⟨i, hi⟩) = none) :
    (∀ d t, lookupA exData (months.get ⟨i, hi⟩) = some d →
        lookupA exTot (months.get ⟨i, hi⟩) = some t →
        lookupA (runMonths exData exTot compute months).1 (months.get ⟨i, hi⟩) = some d
        ∧ lookupA (runMonths exData exTot compute months).2 (months.get ⟨i, hi⟩) = some t)
    ∧ (lookupA exData (months.get ⟨i, hi⟩) = none →
        lookupA (runMonths exData exTot compute months).1 (months.get ⟨i, hi⟩) = none
        ∧ lookupA (runMonths exData exTot compute months).2 (months.get ⟨i, hi⟩) = none)
    ∧ (∀ j (hj : j < months.length),
        lookupA (runMonths exData exTot compute months).1 (months.get ⟨j, hj⟩)
          = lookupA (monthStep exData exTot compute months.length j (months.get ⟨j, hj⟩)).1
              (months.get ⟨j, hj⟩)
        ∧ lookupA (runMonths exData exTot compute months).2 (months.get ⟨j, hj⟩)
          = lookupA (monthStep exData exTot compute months.length j (months.get ⟨j, hj⟩)).2
              (months.get ⟨j, hj⟩)) := by
  have hrun : ∀ j (hj : j < months.length),
      lookupA (runMonths exData exTot compute months).1 (months.get ⟨j, hj⟩)
        = lookupA (monthStep exData exTot compute months.length j (months.get ⟨j, hj⟩)).1
            (months.get ⟨j, hj⟩)
      ∧ lookupA (runMonths exData exTot compute months).2 (months.get ⟨j, hj⟩)
        = lookupA (monthStep exData exTot compute months.length j (months.get ⟨j, hj⟩)).2
            (months.get ⟨j, hj⟩) := by
    intro j hj
    have h := runFrom_lookup exData exTot compute months.length months 0 hnd j hj
    rw [Nat.zero_add] at h
    exact h
  refine ⟨?_, ?_, hrun⟩
  · intro d t hd ht
    have hstep := monthStep_none_cached exData exTot compute months.length i
      (months.get ⟨i, hi⟩) hfail d hd
    constructor
    · rw [(hrun i hi).1, hstep.1, lookupA_singleton, if_pos rfl]
    · rw [(hrun i hi).2, hstep.2, ht, lookupA_optEntry, if_pos rfl]
  · intro hd
    have hstep := monthStep_none_uncached exData exTot compute months.length i
      (months.get ⟨i, hi⟩) hfail hd
    constructor
    · rw [(hrun i hi).1, hstep.1]
      rfl
    · rw [(hrun i hi).2, hstep.2]
      rfl

/-- Witness for C6: in a 4-window run, a failure at uncached `"2025-09"`
leaves it absent from both output maps, while a failure at cached
`"2025-10"` falls back to the baseline records `3` / `13`. -/
theorem c6_witness :
    lookupA (runMonths exBaseData exBaseTot exCompute exMonths).1 "2025-09" = none
    ∧ lookupA (runMonths exBaseData exBaseTot exCompute exMonths).2 "2025-09" = none
    ∧ lookupA (runMonths exBaseData exBaseTot exComputeB exMonths).1 "2025-10" = some 3
    ∧ lookupA (runMonths exBaseData exBaseTot exComputeB exMonths).2 "2025-10" = some 13 := by
  have h1 := (c6_failed_month_fallback exBaseData exBaseTot exCompute exMonths
    (by decide) 1 (by decide) (by decide)).2.1 (by decide)
  have h2 := (c6_failed_month_fallback exBaseData exBaseTot exComputeB exMonths
    (by decide) 2 (by decide) (by decide)).1 3 13 (by decide) (by decide)
  exact ⟨h1.1, h1.2, h2.1, h2.2⟩

/-- C9: every month key appearing anywhere in the output dataset — its
`months` list or the keys of its `data` / `totals` maps — is one of the
current run's window keys; a baseline month outside the current windows is
absent from the written output. -/
theorem c9_output_within_current_windows {α β : Type} (exData : List (String × α))
    (exTot : List (String × β)) (compute : String → Option (α × β))
    (months : List String) (k : String) (hk : k ∉ months) :
    k ∉ (buildDataset exData exTot compute months).months
    ∧ lookupA (buildDataset exData exTot compute months).dataM k = none
    ∧ lookupA (buildDataset exData exTot compute months).totalsM k = none
    ∧ k ∉ ((buildDataset exData exTot compute months).dataM.map Prod.fst)
    ∧ k ∉ ((buildDataset exData exTot compute months).totalsM.map Prod.fst) := by
  have h := runFrom_notmem exData exTot compute months.length k months 0 hk
  exact ⟨hk, h.1, h.2, (lookupA_eq_none_iff _ k).mp h.1, (lookupA_eq_none_iff _ k).mp h.2⟩

/-- Witness for C9: baseline month `"2025-07"` lies outside the current
4-window run and is dropped from the rebuilt output. -/
theorem c9_witness :
    lookupA exBaseData "2025-07" = some 1
    ∧ lookupA (buildDataset exBaseData exBaseTot exCompute exMonths).dataM "2025-07" = none
    ∧ lookupA (buildDataset exBaseData exBaseTot exCompute exMonths).totalsM "2025-07" = none := by
  have h := c9_output_within_current_windows exBaseData exBaseTot exCompute exMonths
    "2025-07" (by decide)
  exact ⟨by decide, h.2.1, h.2.2.1⟩

/-- Congruence for the loop accumulators: maps agreeing on every enumerated
location accumulate identically. -/
theorem foldl_add_congr (f g : String → ℚ) (L : List String)
    (h : ∀ l ∈ L, f l = g l) :
    L.foldl (fun s l => s + f l) 0 = L.foldl (fun s l => s + g l) 0 := by
  rw [foldl_add_eq_sum, foldl_add_eq_sum, List.map_congr_left h]

/-- C10: the per-location output of `calculateKPIs` has exactly the eleven
enumerated location codes as keys (in order), and the output depends on the
input maps only through their values at the enumerated locations (plus
`"Corp"` in the spend map): an absent key reads as zero and any other key
has no effect. -/
theorem c10_keys_and_input_frame
    (vR1 vS1 vL1 vN1 vM1 vR2 vS2 vL2 vN2 vM2 : JsMap)
    (hAg : ∀ loc ∈ LOCATIONS,
      jsGet vR1 loc = jsGet vR2 loc ∧ jsGet vS1 loc = jsGet vS2 loc
      ∧ jsGet vL1 loc = jsGet vL2 loc ∧ jsGet vN1 loc = jsGet vN2 loc
      ∧ jsGet vM1 loc = jsGet vM2 loc)
    (hCorp : jsGet vS1 "Corp" = jsGet vS2 "Corp") :
    ((calculateKPIs vR1 vS1 vL1 vN1 vM1).data.map Prod.fst = LOCATIONS)
    ∧ calculateKPIs vR1 vS1 vL1 vN1 vM1 = calculateKPIs vR2 vS2 vL2 vN2 vM2 := by
  have tls : totalLocSpend vS1 = totalLocSpend vS2 := by
    rw [totalLocSpend, totalLocSpend]
    exact foldl_add_congr _ _ LOCATIONS (fun l hl => (hAg l hl).2.1)
  have hperloc : ∀ loc ∈ LOCATIONS,
      perLocKPIs vR1 vS1 vL1 vN1 vM1 loc = perLocKPIs vR2 vS2 vL2 vN2 vM2 loc := by
    intro loc hl
    obtain ⟨e1, e2, e3, e4, e5⟩ := hAg loc hl
    have eCorp : corpAllocation vS1 loc = corpAllocation vS2 loc := by
      rw [corpAllocation, corpAllocation, hCorp, locShare, locShare, tls, e2]
    have eSal : salaryAllocation vS1 loc = salaryAllocation vS2 loc := by
      rw [salaryAllocation, salaryAllocation, locShare, locShare, tls, e2]
    simp only [perLocKPIs]
    rw [e1, e2, e3, e4, e5, eCorp, eSal]
  have eCorpAll : ∀ l ∈ LOCATIONS, corpAllocation vS1 l = corpAllocation vS2 l := by
    intro l hl
    rw [corpAllocation, corpAllocation, hCorp, locShare, locShare, tls, (hAg l hl).2.1]
  have eSalAll : ∀ l ∈ LOCATIONS, salaryAllocation vS1 l = salaryAllocation vS2 l := by
    intro l hl
    rw [salaryAllocation, salaryAllocation, locShare, locShare, tls, (hAg l hl).2.1]
  have etotals : totalsKPIs vR1 vS1 vL1 vN1 vM1 = totalsKPIs vR2 vS2 vL2 vN2 vM2 := by
    have eRev : totRev vR1 = totRev vR2 :=
      foldl_add_congr _ _ LOCATIONS (fun l hl => (hAg l hl).1)
    have eSp : totSpend vS1 = totSpend vS2 :=
      foldl_add_congr _ _ LOCATIONS (fun l hl => (hAg l hl).2.1)
    have eLd : totLeads vL1 = totLeads vL2 :=
      foldl_add_congr _ _ LOCATIONS (fun l hl => (hAg l hl).2.2.1)
    have eNw : totNewMembers vN1 = totNewMembers vN2 :=
      foldl_add_congr _ _ LOCATIONS (fun l hl => (hAg l hl).2.2.2.1)
    have eMb : totMembers vM1 = totMembers vM2 :=
      foldl_add_congr _ _ LOCATIONS (fun l hl => (hAg l hl).2.2.2.2)
    have eCA : totCorpAlloc vS1 = totCorpAlloc vS2 :=
      foldl_add_congr _ _ LOCATIONS eCorpAll
    have eSA : totSalary vS1 = totSalary vS2 :=
      foldl_add_congr _ _ LOCATIONS eSalAll
    have eDW : durationWeightedSum vM1 = durationWeightedSum vM2 :=
      foldl_add_congr _ _ LOCATIONS
        (fun l hl => by rw [(hAg l hl).2.2.2.2])
    simp only [totalsKPIs]
    rw [eRev, eSp, eLd, eNw, eMb, eCA, eSA, eDW]
  constructor
  · show (LOCATIONS.map
        (fun loc => (loc, perLocKPIs vR1 vS1 vL1 vN1 vM1 loc))).map Prod.fst = LOCATIONS
    rw [List.map_map]
    exact List.map_id LOCATIONS
  · simp only [calculateKPIs]
    rw [List.map_congr_left (fun loc hl => by rw [hperloc loc hl]), etotals]

/-- Witness for C10: a revenue map carrying a junk key `"XYZ"` and an
explicit zero at `"ATL-UWS"` yields the same output as the empty map. -/
theorem c10_witness :
    ((calculateKPIs exJunk exEmpty exEmpty exEmpty exEmpty).data.map Prod.fst = LOCATIONS)
    ∧ calculateKPIs exJunk exEmpty exEmpty exEmpty exEmpty
      = calculateKPIs exEmpty exEmpty exEmpty exEmpty exEmpty := by
  have hAg : ∀ loc ∈ LOCATIONS,
      jsGet exJunk loc = jsGet exEmpty loc ∧ jsGet exEmpty loc = jsGet exEmpty loc
      ∧ jsGet exEmpty loc = jsGet exEmpty loc ∧ jsGet exEmpty loc = jsGet exEmpty loc
      ∧ jsGet exEmpty loc = jsGet exEmpty loc := by
    intro loc hl
    fin_cases hl <;> exact ⟨by decide, rfl, rfl, rfl, rfl⟩
  exact c10_keys_and_input_frame exJunk exEmpty exEmpty exEmpty exEmpty
    exEmpty exEmpty exEmpty exEmpty exEmpty hAg rfl
